import Mathlib

/-!
Shallow embedding of the yamaha_ynca Home Assistant integration
(`custom_components/yamaha_ynca/__init__.py` and
`custom_components/yamaha_ynca/media_player.py`, plus the scene entity
described by `tests/test_scene.py`).

External-library enums (`ynca.Mute`, `ynca.Playback`, `ynca.PlaybackInfo`)
are modelled with the constructors the integration code actually compares
against or writes.  Receiver and zone objects from the external `ynca`
library are modelled as records of the attributes the integration reads
and writes; attributes that may be `None` in Python are `Option`-typed.
Exception control flow is modelled by explicit outcome types: the possible
outcomes of a call into the external library are an enumerated input, and
a function's result type records whether it returned or raised, plus the
observable side effects it performed.
-/

/- ### External-library enums (ynca) -/

inductive Mute
  | on
  | off
deriving DecidableEq, Repr

inductive Playback
  | PLAY
  | PAUSE
  | STOP
  | SKIP_FWD
  | SKIP_REV
deriving DecidableEq, Repr

inductive PlaybackInfo
  | PLAY
  | PAUSE
  | STOP
deriving DecidableEq, Repr

/- ### Home Assistant state constants (homeassistant.const) -/

def STATE_OFF : String := "off"

def STATE_ON : String := "on"

def STATE_PLAYING : String := "playing"

def STATE_PAUSED : String := "paused"

def STATE_IDLE : String := "idle"

/- ### Python truthiness of an optional boolean (`if not self._zone.pwr`) -/

def pyTruthy : Option Bool → Bool
  | some b => b
  | none => false

/- ### Data model: zone, subunit and receiver objects of the ynca library -/

/-- A zone subunit of the receiver, as the integration sees it: the
attributes `media_player.py` reads (`id`, `name`, `pwr`, `volume`,
`min_volume`, `max_volume`, `mute`, `input`). -/
structure Zone where
  id : String
  name : String
  pwr : Option Bool
  volume : ℚ
  min_volume : ℚ
  max_volume : ℚ
  mute : Option Mute
  input : Option String

/-- An input subunit (e.g. USB, NETRADIO): the attributes the `state`
property reads.  `playbackinfo` is `none` when the Python object lacks the
attribute (`getattr(input_subunit, "playbackinfo", None)`). -/
structure Subunit where
  id : String
  playbackinfo : Option PlaybackInfo
deriving DecidableEq, Repr

/-- The receiver API object: `inputs` is the ordered dict of
input-id/user-name pairs; `subunits` is `getattr(receiver, subunit_id, None)`;
`zones` is `getattr(receiver, zone_subunit_id)` for zone subunit ids;
`subunit_input_mappings` is the external constant
`ynca.SUBUNIT_INPUT_MAPPINGS` (subunit id to input name, in iteration
order). -/
structure Receiver where
  inputs : List (String × String)
  subunits : String → Option Subunit
  zones : String → Option Zone
  subunit_input_mappings : List (String × String)

/- ### helpers.scale -/

/-- Modelled from the spec: `scale` lives in `helpers.py`, which is not
under src/; per the spec each entity property "applies a trivial transform
(unit scaling)", so `scale` is the linear rescaling of `value` from
`input_range` to `output_range`. -/
def scale (value : ℚ) (input_range output_range : ℚ × ℚ) : ℚ :=
  output_range.1 +
    (value - input_range.1) / (input_range.2 - input_range.1) *
      (output_range.2 - output_range.1)

/- ### media_player.py : YamahaYncaZone -/

namespace media_player

/-- The zone media-player entity: the fields stored by
`YamahaYncaZone.__init__` (`self._receiver`, `self._zone`,
`self._attr_unique_id`). -/
structure YamahaYncaZone where
  receiver : Receiver
  zone : Zone
  unique_id : String

/-- `YamahaYncaZone.__init__`: stores receiver and zone and computes
`self._attr_unique_id = f"{receiver_unique_id}_{self._zone.id}"`. -/
def YamahaYncaZone.init (receiver_unique_id : String) (receiver : Receiver)
    (zone : Zone) : YamahaYncaZone :=
  ⟨receiver, zone, receiver_unique_id ++ "_" ++ zone.id⟩

/-- `async_setup_entry` of media_player.py: one `YamahaYncaZone` per id in
`ZONE_SUBUNIT_IDS` whose attribute on the receiver is non-null.  The id
list is a parameter because `const.py` only names the ids. -/
def async_setup_entry (entry_id : String) (receiver : Receiver)
    (zone_subunit_ids : List String) : List YamahaYncaZone :=
  zone_subunit_ids.filterMap fun zid =>
    (receiver.zones zid).map fun z => YamahaYncaZone.init entry_id receiver z

/-- `YamahaYncaZone.debounced_update` as written in the source: the
`@debounce(0.200)` decorator on it is commented out, so every invocation
executes the body, which calls `self.schedule_update_ha_state()` exactly
once.  The argument and result count the `schedule_update_ha_state` calls
issued so far. -/
def debounced_update (schedule_update_ha_state_calls : ℕ) : ℕ :=
  schedule_update_ha_state_calls + 1

/-- Delivering a burst of `k` rapid successive update callbacks to the
entity: each callback invokes `debounced_update`. -/
def deliver_burst : ℕ → ℕ → ℕ
  | 0, calls => calls
  | k + 1, calls => deliver_burst k (debounced_update calls)

/-- `YamahaYncaZone.get_input_from_source`: first input whose user name
equals `source`, else `None`. -/
def YamahaYncaZone.get_input_from_source (e : YamahaYncaZone)
    (source : String) : Option String :=
  (e.receiver.inputs.find? fun p => p.2 == source).map (·.1)

/-- `YamahaYncaZone._input_subunit`: scans `ynca.SUBUNIT_INPUT_MAPPINGS`
and on the first mapping whose input name equals the zone's current input,
returns `getattr(self._receiver, subunit.value, None)`; `None` when no
mapping matches. -/
def YamahaYncaZone.input_subunit (e : YamahaYncaZone) : Option Subunit :=
  match e.receiver.subunit_input_mappings.find?
      (fun p => some p.2 == e.zone.input) with
  | some p => e.receiver.subunits p.1
  | none => none

/-- `YamahaYncaZone.state`: `STATE_OFF` when the zone power is falsy,
otherwise derived from the current input subunit's `playbackinfo`, falling
back to `STATE_ON`. -/
def YamahaYncaZone.state (e : YamahaYncaZone) : String :=
  if pyTruthy e.zone.pwr = false then STATE_OFF
  else
    match e.input_subunit with
    | some su =>
      match su.playbackinfo with
      | some PlaybackInfo.PLAY => STATE_PLAYING
      | some PlaybackInfo.PAUSE => STATE_PAUSED
      | some PlaybackInfo.STOP => STATE_IDLE
      | none => STATE_ON
    | none => STATE_ON

/-- `YamahaYncaZone.volume_level`: scale the zone volume from
`[min_volume, max_volume]` to `[0, 1]`. -/
def YamahaYncaZone.volume_level (e : YamahaYncaZone) : ℚ :=
  scale e.zone.volume (e.zone.min_volume, e.zone.max_volume) (0, 1)

/-- `YamahaYncaZone.set_volume_level`: scale `volume` from `[0, 1]` to
`[min_volume, max_volume]` and write it to the zone. -/
def YamahaYncaZone.set_volume_level (e : YamahaYncaZone) (volume : ℚ) :
    YamahaYncaZone :=
  { e with
    zone :=
      { e.zone with
        volume :=
          scale volume (0, 1) (e.zone.min_volume, e.zone.max_volume) } }

/-- Result of a UI action: the (possibly updated) entity, and the list of
`zone.playback(...)` method calls the action issued. -/
structure ActionResult where
  entity : YamahaYncaZone
  playback_calls : List Playback

/-- `YamahaYncaZone.turn_on`: `self._zone.pwr = True`. -/
def YamahaYncaZone.turn_on (e : YamahaYncaZone) : ActionResult :=
  ⟨{ e with zone := { e.zone with pwr := some true } }, []⟩

/-- `YamahaYncaZone.turn_off`: `self._zone.pwr = False`. -/
def YamahaYncaZone.turn_off (e : YamahaYncaZone) : ActionResult :=
  ⟨{ e with zone := { e.zone with pwr := some false } }, []⟩

/-- `YamahaYncaZone.mute_volume`: `self._zone.mute = Mute.on if mute else
Mute.off`. -/
def YamahaYncaZone.mute_volume (e : YamahaYncaZone) (mute : Bool) :
    ActionResult :=
  ⟨{ e with
      zone :=
        { e.zone with mute := some (if mute then Mute.on else Mute.off) } },
    []⟩

/-- `YamahaYncaZone.select_source`:
`self._zone.input = self.get_input_from_source(source)` (unguarded). -/
def YamahaYncaZone.select_source (e : YamahaYncaZone) (source : String) :
    YamahaYncaZone :=
  { e with zone := { e.zone with input := e.get_input_from_source source } }

/-- `YamahaYncaZone.media_play`: `self._zone.playback(Playback.PLAY)`. -/
def YamahaYncaZone.media_play (e : YamahaYncaZone) : ActionResult :=
  ⟨e, [Playback.PLAY]⟩

/-- `YamahaYncaZone.media_pause`: `self._zone.playback(Playback.PAUSE)`. -/
def YamahaYncaZone.media_pause (e : YamahaYncaZone) : ActionResult :=
  ⟨e, [Playback.PAUSE]⟩

/-- `YamahaYncaZone.media_stop`: `self._zone.playback(Playback.STOP)`. -/
def YamahaYncaZone.media_stop (e : YamahaYncaZone) : ActionResult :=
  ⟨e, [Playback.STOP]⟩

/-- `YamahaYncaZone.media_next_track`:
`self._zone.playback(Playback.SKIP_FWD)`. -/
def YamahaYncaZone.media_next_track (e : YamahaYncaZone) : ActionResult :=
  ⟨e, [Playback.SKIP_FWD]⟩

/-- `YamahaYncaZone.media_previous_track`:
`self._zone.playback(Playback.SKIP_REV)`. -/
def YamahaYncaZone.media_previous_track (e : YamahaYncaZone) : ActionResult :=
  ⟨e, [Playback.SKIP_REV]⟩

end media_player

/- ### `__init__.py` : async_setup_entry -/

namespace yamaha_ynca_init

/-- Possible outcomes of `ynca_receiver.initialize()` in the external
library, as distinguished by the `except` clauses of `initialize_ynca`. -/
inductive InitializeOutcome
  | success
  | connection_error
  | connection_failed
  | initialization_failed
  | other_exception
deriving DecidableEq, Repr

/-- What the inner `initialize_ynca` function does: return a boolean or
raise `ConfigEntryNotReady`. -/
inductive InitResult
  | returned (b : Bool)
  | raised_config_entry_not_ready
deriving DecidableEq, Repr

/-- A run of `initialize_ynca`: its control-flow result and whether it
logged an exception (`LOGGER.exception(...)`). -/
structure InitRun where
  result : InitResult
  logged_exception : Bool
deriving DecidableEq, Repr

/-- `initialize_ynca` of `async_setup_entry`: calls
`ynca_receiver.initialize()` and returns `True` on success; re-raises the
three recognized ynca failures as `ConfigEntryNotReady`; logs any other
exception and returns `False`. -/
def initialize_ynca : InitializeOutcome → InitRun
  | InitializeOutcome.success => ⟨InitResult.returned true, false⟩
  | InitializeOutcome.connection_error =>
    ⟨InitResult.raised_config_entry_not_ready, false⟩
  | InitializeOutcome.connection_failed =>
    ⟨InitResult.raised_config_entry_not_ready, false⟩
  | InitializeOutcome.initialization_failed =>
    ⟨InitResult.raised_config_entry_not_ready, false⟩
  | InitializeOutcome.other_exception => ⟨InitResult.returned false, true⟩

/-- The post-initialization side effects `async_setup_entry` can perform,
in source order: `update_device_registry`, `update_configentry`, storing
`DomainEntryData` in `hass.data[DOMAIN]`, forwarding the entry to the
entity platforms, registering the `send_raw_ynca` service, and adding the
options-update listener. -/
structure SetupEffects where
  device_registry_updated : Bool
  configentry_updated : Bool
  domain_data_stored : Bool
  platforms_forwarded : Bool
  service_registered : Bool
  update_listener_added : Bool
deriving DecidableEq, Repr

/-- No side effect performed. -/
def noEffects : SetupEffects := ⟨false, false, false, false, false, false⟩

/-- What a run of `async_setup_entry` does: return a boolean or propagate
`ConfigEntryNotReady`, together with the effects it performed. -/
inductive SetupResult
  | returned (b : Bool) (effects : SetupEffects)
  | raised_config_entry_not_ready (effects : SetupEffects)
deriving DecidableEq, Repr

/-- `async_setup_entry` of `__init__.py`: runs `initialize_ynca` on the
executor; a `ConfigEntryNotReady` raised there propagates before any
post-initialization step; when it returns `True` every post step runs
(the service is registered only when not already present); when it
returns `False` none of them run and `False` is returned. -/
def async_setup_entry (outcome : InitializeOutcome)
    (service_already_registered : Bool) : SetupResult :=
  match (initialize_ynca outcome).result with
  | InitResult.raised_config_entry_not_ready =>
    SetupResult.raised_config_entry_not_ready noEffects
  | InitResult.returned true =>
    SetupResult.returned true
      ⟨true, true, true, true, !service_already_registered, true⟩
  | InitResult.returned false => SetupResult.returned false noEffects

/-- Possible outcomes of awaiting
`hass.config_entries.async_reload(entry.entry_id)` from the disconnect
callback: it completes, or raises `OperationNotAllowed` (reload during
setup), or raises some other error. -/
inductive ReloadOutcome
  | completed
  | raised_operation_not_allowed
  | raised_other
deriving DecidableEq, Repr

/-- A run of the disconnect callback: which entry id `async_reload` was
called with (if any), and whether an exception propagated out of the
callback. -/
structure DisconnectRun where
  reload_called_with : Option String
  propagated_exception : Bool
deriving DecidableEq, Repr

/-- `on_disconnect` of `async_setup_entry`: always schedules
`hass.config_entries.async_reload(entry.entry_id)` and waits for it;
`OperationNotAllowed` is caught and ignored, anything else propagates. -/
def on_disconnect (entry_id : String) (outcome : ReloadOutcome) :
    DisconnectRun :=
  match outcome with
  | ReloadOutcome.completed => ⟨some entry_id, false⟩
  | ReloadOutcome.raised_operation_not_allowed => ⟨some entry_id, false⟩
  | ReloadOutcome.raised_other => ⟨some entry_id, true⟩

end yamaha_ynca_init

/- ### scene.py : YamahaYncaScene (absent from src/, modelled from the
     spec and the assertions of tests/test_scene.py) -/

namespace scene

/-- The zone attributes the scene entity reads (`zone.id`, `zone.name`,
`zone.scenes` as a scene-id to scene-name dict). -/
structure SceneZone where
  id : String
  name : String
  scenes : List (String × String)

/-- Modelled from the spec: `scene.py` is not under src/; per the spec's
test description ("given a mock zone with a scene, the generated entity's
unique id equals `<receiver>_<zone>_scene_<id>`") and the assertions of
`tests/test_scene.py`, the scene entity stores the receiver unique id, the
zone and the scene id. -/
structure YamahaYncaScene where
  receiver_unique_id : String
  zone : SceneZone
  scene_id : String

/-- Modelled from the spec: the entity's unique id is
`<receiver_unique_id>_<zone id>_scene_<scene id>`. -/
def YamahaYncaScene.unique_id (s : YamahaYncaScene) : String :=
  s.receiver_unique_id ++ "_" ++ s.zone.id ++ "_scene_" ++ s.scene_id

/-- Modelled from the spec: the entity's name is
`<zone name>: <scene name>` where the scene name is looked up under the
scene id in `zone.scenes`. -/
def YamahaYncaScene.name (s : YamahaYncaScene) : String :=
  s.zone.name ++ ": " ++
    (((s.zone.scenes.find? fun p => p.1 == s.scene_id).map (·.2)).getD "")

end scene

/- ### Concrete objects used by witnesses -/

/-- A concrete zone used by witnesses: volume range -80..16, powered on,
input HDMI1. -/
def witnessZone : Zone :=
  { id := "MAIN"
    name := "Main zone"
    pwr := some true
    volume := 0
    min_volume := -80
    max_volume := 16
    mute := some Mute.off
    input := some "HDMI1" }

/-- A concrete receiver used by witnesses. -/
def witnessReceiver : Receiver :=
  { inputs := [("HDMI1", "BluRay"), ("AV1", "Cable")]
    subunits := fun _ => none
    zones := fun zid => if zid == "main" then some witnessZone else none
    subunit_input_mappings := [] }

/-- A concrete zone entity used by witnesses. -/
def witnessEntity : media_player.YamahaYncaZone :=
  media_player.YamahaYncaZone.init "entry1" witnessReceiver witnessZone

/-- A powered-off variant of the concrete zone. -/
def witnessZoneOff : Zone := { witnessZone with pwr := some false }

/-- A powered-off concrete entity. -/
def witnessEntityOff : media_player.YamahaYncaZone :=
  media_player.YamahaYncaZone.init "entry1" witnessReceiver witnessZoneOff

/-- A receiver whose USB subunit reports `PLAY` for the USB input. -/
def witnessReceiverPlaying : Receiver :=
  { inputs := [("USB", "USB")]
    subunits := fun sid =>
      if sid == "usb" then some ⟨"USB", some PlaybackInfo.PLAY⟩ else none
    zones := fun _ => none
    subunit_input_mappings := [("usb", "USB")] }

/-- A concrete entity whose current input subunit reports `PLAY`. -/
def witnessEntityPlaying : media_player.YamahaYncaZone :=
  media_player.YamahaYncaZone.init "entry1" witnessReceiverPlaying
    { witnessZone with input := some "USB" }

/-- The mock zone of `tests/test_scene.py`. -/
def witnessSceneZone : scene.SceneZone :=
  { id := "ZoneId"
    name := "ZoneName"
    scenes := [("1234", "SceneName 1234")] }

/- ### Theorems -/

/-- C1: the claim says a burst of rapid successive update callbacks yields
exactly one `schedule_update_ha_state` call; in the source the
`@debounce(0.200)` decorator is commented out, so a burst of two callbacks
yields two calls. -/
theorem deliver_burst_schedules_once_per_callback :
    media_player.deliver_burst 2 0 = 2 := rfl

/-- C2: when `initialize()` raises any of the three recognized ynca
failures, `async_setup_entry` propagates `ConfigEntryNotReady` and
performs none of the post-initialization steps (no entity registration, no
domain data, no `send_raw_ynca` service). -/
theorem setup_entry_ynca_failure_raises_not_ready
    (service_already_registered : Bool) :
    yamaha_ynca_init.async_setup_entry
        yamaha_ynca_init.InitializeOutcome.connection_error
        service_already_registered =
      yamaha_ynca_init.SetupResult.raised_config_entry_not_ready
        yamaha_ynca_init.noEffects ∧
    yamaha_ynca_init.async_setup_entry
        yamaha_ynca_init.InitializeOutcome.connection_failed
        service_already_registered =
      yamaha_ynca_init.SetupResult.raised_config_entry_not_ready
        yamaha_ynca_init.noEffects ∧
    yamaha_ynca_init.async_setup_entry
        yamaha_ynca_init.InitializeOutcome.initialization_failed
        service_already_registered =
      yamaha_ynca_init.SetupResult.raised_config_entry_not_ready
        yamaha_ynca_init.noEffects :=
  ⟨rfl, rfl, rfl⟩

/-- C3: when `initialize()` raises any exception other than the three
recognized ynca failures, setup does not raise: the exception is logged,
`False` is returned, and none of the post-initialization steps run. -/
theorem setup_entry_other_exception_returns_false
    (service_already_registered : Bool) :
    (yamaha_ynca_init.initialize_ynca
        yamaha_ynca_init.InitializeOutcome.other_exception).logged_exception
        = true ∧
    yamaha_ynca_init.async_setup_entry
        yamaha_ynca_init.InitializeOutcome.other_exception
        service_already_registered =
      yamaha_ynca_init.SetupResult.returned false
        yamaha_ynca_init.noEffects :=
  ⟨rfl, rfl⟩

/-- C4: for every zone with `min_volume < max_volume` and every volume
value `v` in `[0, 1]`, `set_volume_level v` followed by `volume_level`
returns `v`: the two scalings are mutually inverse. -/
theorem set_volume_level_volume_level_roundtrip
    (e : media_player.YamahaYncaZone) (v : ℚ)
    (hlt : e.zone.min_volume < e.zone.max_volume)
    (h0 : 0 ≤ v) (h1 : v ≤ 1) :
    (e.set_volume_level v).volume_level = v := by
  have hne : e.zone.max_volume - e.zone.min_volume ≠ 0 := by
    intro h
    exact absurd (sub_eq_zero.mp h).symm (ne_of_lt hlt)
  simp only [media_player.YamahaYncaZone.set_volume_level,
    media_player.YamahaYncaZone.volume_level, scale]
  field_simp

/-- Witness for C4 at the concrete entity and `v = 1/2`. -/
theorem set_volume_level_volume_level_roundtrip_witness :
    (witnessEntity.set_volume_level (1 / 2)).volume_level = 1 / 2 :=
  set_volume_level_volume_level_roundtrip witnessEntity (1 / 2)
    (by norm_num [witnessEntity, witnessZone,
      media_player.YamahaYncaZone.init])
    (by norm_num) (by norm_num)

/-- C5: every UI action forwards to exactly one receiver write or method
call and touches nothing else on the zone: `turn_on` sets `pwr := True`,
`turn_off` sets `pwr := False`, `mute_volume m` sets `mute` to `Mute.on`
iff `m`, and the five transport actions each issue exactly the single
`zone.playback` call with `PLAY` / `PAUSE` / `STOP` / `SKIP_FWD` /
`SKIP_REV` while leaving the entity untouched. -/
theorem ui_actions_forward_single_receiver_call
    (e : media_player.YamahaYncaZone) (m : Bool) :
    e.turn_on.entity = { e with zone := { e.zone with pwr := some true } } ∧
    e.turn_on.playback_calls = [] ∧
    e.turn_off.entity = { e with zone := { e.zone with pwr := some false } } ∧
    e.turn_off.playback_calls = [] ∧
    (e.mute_volume m).entity =
      { e with
        zone :=
          { e.zone with
            mute := some (if m then Mute.on else Mute.off) } } ∧
    (e.mute_volume m).playback_calls = [] ∧
    e.media_play.entity = e ∧
    e.media_play.playback_calls = [Playback.PLAY] ∧
    e.media_pause.entity = e ∧
    e.media_pause.playback_calls = [Playback.PAUSE] ∧
    e.media_stop.entity = e ∧
    e.media_stop.playback_calls = [Playback.STOP] ∧
    e.media_next_track.entity = e ∧
    e.media_next_track.playback_calls = [Playback.SKIP_FWD] ∧
    e.media_previous_track.entity = e ∧
    e.media_previous_track.playback_calls = [Playback.SKIP_REV] :=
  ⟨rfl, rfl, rfl, rfl, rfl, rfl, rfl, rfl, rfl, rfl, rfl, rfl, rfl, rfl,
    rfl, rfl⟩

/-- C6: every invocation of the disconnect callback calls
`hass.config_entries.async_reload` with the owning entry's id, and an
`OperationNotAllowed` raised by the reload is swallowed. -/
theorem on_disconnect_reloads_entry_and_swallows_not_allowed
    (entry_id : String) :
    (∀ outcome,
      (yamaha_ynca_init.on_disconnect entry_id outcome).reload_called_with =
        some entry_id) ∧
    (yamaha_ynca_init.on_disconnect entry_id
        yamaha_ynca_init.ReloadOutcome.raised_operation_not_allowed
      ).propagated_exception = false :=
  ⟨fun outcome => by cases outcome <;> rfl, rfl⟩

/-- C7: a scene entity built from a receiver unique id, a zone with id `Z`
and a scene id `S` has unique id `<receiver_unique_id>_<Z>_scene_<S>` and
name `<zone name>: <scene name>`. -/
theorem scene_entity_unique_id_and_name
    (receiver_unique_id : String) (zone : scene.SceneZone)
    (scene_id scene_name : String)
    (h : (zone.scenes.find? fun p => p.1 == scene_id) =
      some (scene_id, scene_name)) :
    (scene.YamahaYncaScene.mk receiver_unique_id zone scene_id).unique_id =
      receiver_unique_id ++ "_" ++ zone.id ++ "_scene_" ++ scene_id ∧
    (scene.YamahaYncaScene.mk receiver_unique_id zone scene_id).name =
      zone.name ++ ": " ++ scene_name := by
  constructor
  · rfl
  · simp [scene.YamahaYncaScene.name, h]

/-- Witness for C7: the mock of `tests/test_scene.py` yields unique id
`ReceiverUniqueId_ZoneId_scene_1234` and name `ZoneName: SceneName 1234`. -/
theorem scene_entity_unique_id_and_name_witness :
    (scene.YamahaYncaScene.mk "ReceiverUniqueId" witnessSceneZone
        "1234").unique_id = "ReceiverUniqueId_ZoneId_scene_1234" ∧
    (scene.YamahaYncaScene.mk "ReceiverUniqueId" witnessSceneZone
        "1234").name = "ZoneName: SceneName 1234" :=
  scene_entity_unique_id_and_name "ReceiverUniqueId" witnessSceneZone
    "1234" "SceneName 1234" (by decide)

/-- C8: media-player entity setup creates exactly one `YamahaYncaZone` per
zone subunit id whose attribute on the receiver is non-null, in order, and
none for absent zones. -/
theorem setup_entry_one_entity_per_present_zone
    (entry_id : String) (receiver : Receiver)
    (zone_subunit_ids : List String) :
    media_player.async_setup_entry entry_id receiver zone_subunit_ids =
      (zone_subunit_ids.filterMap receiver.zones).map
        (media_player.YamahaYncaZone.init entry_id receiver) ∧
    (media_player.async_setup_entry entry_id receiver
        zone_subunit_ids).length =
      (zone_subunit_ids.filterMap receiver.zones).length := by
  have h : media_player.async_setup_entry entry_id receiver
      zone_subunit_ids =
      (zone_subunit_ids.filterMap receiver.zones).map
        (media_player.YamahaYncaZone.init entry_id receiver) := by
    simp [media_player.async_setup_entry, List.map_filterMap]
  exact ⟨h, by rw [h, List.length_map]⟩

/-- C9: for a source name matching no value of `receiver.inputs`,
`select_source` sets `zone.input` to `None`. -/
theorem select_source_unknown_sets_input_none
    (e : media_player.YamahaYncaZone) (source : String)
    (h : ∀ p ∈ e.receiver.inputs, p.2 ≠ source) :
    (e.select_source source).zone.input = none := by
  have hfind : e.receiver.inputs.find? (fun p => p.2 == source) = none := by
    rw [List.find?_eq_none]
    intro p hp
    simpa using h p hp
  simp [media_player.YamahaYncaZone.select_source,
    media_player.YamahaYncaZone.get_input_from_source, hfind]

/-- Witness for C9: the concrete receiver has inputs named "BluRay" and
"Cable", so selecting "Unknown" writes `None`. -/
theorem select_source_unknown_sets_input_none_witness :
    (∀ p ∈ witnessEntity.receiver.inputs, p.2 ≠ "Unknown") ∧
    (witnessEntity.select_source "Unknown").zone.input = none :=
  ⟨by decide,
    select_source_unknown_sets_input_none witnessEntity "Unknown"
      (by decide)⟩

/-- C10: when the zone power is `False` the state is `STATE_OFF`
regardless of playback info; `STATE_PLAYING` / `STATE_PAUSED` /
`STATE_IDLE` can only be returned with power `True`; and `STATE_ON` is
returned when power is `True` and no input subunit reports a recognized
playback info. -/
theorem state_power_and_playback_semantics
    (e : media_player.YamahaYncaZone) :
    (e.zone.pwr = some false → e.state = STATE_OFF) ∧
    ((e.state = STATE_PLAYING ∨ e.state = STATE_PAUSED ∨
        e.state = STATE_IDLE) →
      e.zone.pwr = some true) ∧
    (e.zone.pwr = some true →
      (∀ su, e.input_subunit = some su → su.playbackinfo = none) →
      e.state = STATE_ON) := by
  refine ⟨?_, ?_, ?_⟩
  · intro hpwr
    simp [media_player.YamahaYncaZone.state, pyTruthy, hpwr]
  · intro hs
    rcases hpwr : e.zone.pwr with _ | b
    · have hoff : e.state = STATE_OFF := by
        simp [media_player.YamahaYncaZone.state, pyTruthy, hpwr]
      rcases hs with h | h | h <;> rw [hoff] at h <;>
        exact absurd h (by decide)
    · cases b
      · have hoff : e.state = STATE_OFF := by
          simp [media_player.YamahaYncaZone.state, pyTruthy, hpwr]
        rcases hs with h | h | h <;> rw [hoff] at h <;>
          exact absurd h (by decide)
      · rfl
  · intro hpwr hsub
    simp only [media_player.YamahaYncaZone.state, pyTruthy, hpwr]
    rcases hsu : e.input_subunit with _ | su
    · simp [hsu]
    · simp [hsu, hsub su hsu]

/-- Witness for C10: each conjunct applied at a concrete entity with its
hypotheses discharged by evaluation. -/
theorem state_power_and_playback_semantics_witness :
    witnessEntityOff.state = STATE_OFF ∧
    witnessEntityPlaying.zone.pwr = some true ∧
    witnessEntity.state = STATE_ON :=
  ⟨(state_power_and_playback_semantics witnessEntityOff).1 rfl,
    (state_power_and_playback_semantics witnessEntityPlaying).2.1
      (Or.inl rfl),
    (state_power_and_playback_semantics witnessEntity).2.2 rfl
      (fun _ h => nomatch h)⟩
